import Mathlib

set_option maxRecDepth 100000

/-!
Verification of the OAuth2 callback / GraphQL orchestration core of the
repository (app.ts and graphql_client.ts).  JavaScript runtime values are
embedded as the inductive type `Json`; the JavaScript value `undefined` is
modelled as `none : Option Json`.  Thrown exceptions are modelled with
`Except String`, the `String` being the message carried by the error object.
-/

/-- A JavaScript/JSON runtime value.  `undefined` is represented separately
as `none : Option Json`. -/
inductive Json where
  | null : Json
  | str : String → Json
  | num : Int → Json
  | bool : Bool → Json
  | arr : List Json → Json
  | obj : List (String × Json) → Json

/-- A JavaScript value that may also be `undefined` (`none`). -/
abbrev JVal := Option Json

/-- Field lookup in an object literal, first binding wins. -/
def lookupField : List (String × Json) → String → JVal
  | [], _ => none
  | (k, v) :: rest, key => if k == key then some v else lookupField rest key

/-- Plain property access `v.k`: throws a TypeError on `null`, yields
`undefined` on primitives, looks the key up on objects. -/
def jsGet (v : Json) (k : String) : Except String JVal :=
  match v with
  | .null => .error ("Cannot read properties of null (reading " ++ k ++ ")")
  | .obj fs => .ok (lookupField fs k)
  | _ => .ok none

/-- Optional-chained access `x?.k`: `undefined` and `null` short-circuit to
`undefined`; other primitives have no such property. -/
def jsOptGet (x : JVal) (k : String) : JVal :=
  match x with
  | none => none
  | some .null => none
  | some (.obj fs) => lookupField fs k
  | some _ => none

/-- Plain property access on a possibly-undefined value: `undefined` and
`null` receivers throw. -/
def jsGetStrict (x : JVal) (k : String) : Except String JVal :=
  match x with
  | none => .error ("Cannot read properties of undefined (reading " ++ k ++ ")")
  | some v => jsGet v k

/-- JavaScript truthiness of a defined value. -/
def Json.truthy : Json → Bool
  | .null => false
  | .str s => s ≠ ""
  | .num n => n ≠ 0
  | .bool b => b
  | .arr _ => true
  | .obj _ => true

/-- The value of the property `length`: real length for arrays and strings,
an ordinary field lookup on objects, `undefined` otherwise. -/
def Json.lengthProp : Json → JVal
  | .arr xs => some (.num xs.length)
  | .str s => some (.num s.length)
  | .obj fs => lookupField fs "length"
  | _ => none

/-- The test `x.length === 0` on a defined value. -/
def Json.lengthIsZero (v : Json) : Bool :=
  match v.lengthProp with
  | some (.num 0) => true
  | _ => false

/-- The guard `!x || x.length === 0` used by the orchestrator on both the
hubs list and the projects list (short-circuit keeps the `length` read safe). -/
def jsEmptyCheck (x : JVal) : Bool :=
  match x with
  | none => true
  | some v => if v.truthy then v.lengthIsZero else true

/-- Index access `v[0]`: first array element, first character of a string,
field "0" of an object, `undefined` otherwise. -/
def jsIndex0 : Json → JVal
  | .arr [] => none
  | .arr (x :: _) => some x
  | .str s => if s.isEmpty then none else some (.str (s.take 1))
  | .obj fs => lookupField fs "0"
  | _ => none

mutual

/-- String interpolation of a defined value inside a template literal. -/
def Json.jsStr : Json → String
  | .null => "null"
  | .str s => s
  | .num n => toString n
  | .bool b => if b then "true" else "false"
  | .arr xs => String.intercalate "," (jsStrList xs)
  | .obj _ => "[object Object]"

/-- Elementwise rendering for Array.prototype.toString: null elements render
as the empty string. -/
def jsStrList : List Json → List String
  | [] => []
  | .null :: rest => "" :: jsStrList rest
  | v :: rest => Json.jsStr v :: jsStrList rest

end

/-- String interpolation of a possibly-undefined value. -/
def jsValStr : JVal → String
  | none => "undefined"
  | some v => v.jsStr

example : jsEmptyCheck (some (.arr [])) = true := rfl
example : jsEmptyCheck (some (.arr [.null])) = false := rfl
example : jsEmptyCheck none = true := rfl
example : jsValStr (some (.str "h1")) = "h1" := rfl

/-!
The GraphQL gateway (graphql_client.ts).  `getHubs` and `getProjects` are
network calls through graphql-request; from the callers view each either
resolves with a JSON payload or rejects with an error carrying a message.
A `GraphQLBackend` records that behaviour for one orchestration run: the
outcome of the hubs query, and the outcome of the projects query as a
function of the `hubId` variable it is invoked with.
-/

structure GraphQLBackend where
  hubsResult : Except String Json
  projectsResult : JVal → Except String Json

/-- The error object built by the catch-all branch of performGraphQLQuery:
field error set to the fixed message, field details set to the message of
the thrown error. -/
def graphQLQueryError (msg : String) : Json :=
  .obj [("error", .str "An error occurred during the GraphQL query"),
        ("details", .str msg)]

/-- The empty-hubs result object. -/
def noHubsError : Json :=
  .obj [("error", .str "No hubs found or access denied.")]

/-- The empty-projects result object, with the hubId interpolated by the
template literal. -/
def noProjectsError (hubId : JVal) : Json :=
  .obj [("error", .str ("No projects found in hub " ++ jsValStr hubId ++ "."))]

/-- One orchestration run: the JSON value returned to the caller, and the
trace of hubId arguments passed to getProjects (in order). -/
structure OrchestrationRun where
  result : Json
  projectCalls : List JVal

/-- Steps 3-5 of the orchestrator: query projects for the selected hubId,
check hub?.projects?.results for absence/emptiness, otherwise return the raw
payload.  Thrown errors are caught by the surrounding try/catch. -/
def projectsPhase (b : GraphQLBackend) (hubId : JVal) : OrchestrationRun :=
  match b.projectsResult hubId with
  | .error msg => ⟨graphQLQueryError msg, [hubId]⟩
  | .ok projectsResult =>
    match jsGet projectsResult "hub" with
    | .error msg => ⟨graphQLQueryError msg, [hubId]⟩
    | .ok hubProp =>
      let projects := jsOptGet (jsOptGet hubProp "projects") "results"
      if jsEmptyCheck projects then
        ⟨noProjectsError hubId, [hubId]⟩
      else
        ⟨projectsResult, [hubId]⟩

/-- The hubs.forEach logging loop of performGraphQLQuery: each iteration
builds a template literal reading hub.id and then hub.name, so a null
element makes the hub.id read throw a TypeError, aborting the orchestration
into the catch block before any projects query. -/
def forEachLog : List Json → Except String Unit
  | [] => .ok ()
  | hub :: rest =>
    match jsGet hub "id" with
    | .error msg => .error msg
    | .ok _ =>
      match jsGet hub "name" with
      | .error msg => .error msg
      | .ok _ => forEachLog rest

/-- performGraphQLQuery from app.ts: retrieve hubs, bail out on an absent or
empty hubs list, log every hub (reading hub.id and hub.name per element),
select the first hub, query its projects, bail out on an absent or empty
projects list, otherwise return the raw projects payload; any throw is
caught and reduced to the graphQLQueryError object. -/
def performGraphQLQuery (b : GraphQLBackend) : OrchestrationRun :=
  match b.hubsResult with
  | .error msg => ⟨graphQLQueryError msg, []⟩
  | .ok hubsResult =>
    match jsGet hubsResult "hubs" with
    | .error msg => ⟨graphQLQueryError msg, []⟩
    | .ok hubsProp =>
      let hubs := jsOptGet hubsProp "results"
      if jsEmptyCheck hubs then
        ⟨noHubsError, []⟩
      else
        match hubs with
        | none => ⟨noHubsError, []⟩
        | some hubsVal =>
          match hubsVal with
          | .arr xs =>
            match forEachLog xs with
            | .error msg => ⟨graphQLQueryError msg, []⟩
            | .ok _ =>
              match jsGetStrict (jsIndex0 hubsVal) "id" with
              | .error msg => ⟨graphQLQueryError msg, []⟩
              | .ok hubId => projectsPhase b hubId
          | _ => ⟨graphQLQueryError "hubs.forEach is not a function", []⟩

example :
    (performGraphQLQuery
      ⟨.ok (.obj [("hubs", .obj [("results",
          .arr [.obj [("id", .str "h1"), ("name", .str "Hub One")],
                .obj [("id", .str "h2"), ("name", .str "Hub Two")]])])]),
       fun _ => .ok (.obj [("hub", .obj [("projects", .obj [("results",
          .arr [.obj [("id", .str "p1"), ("name", .str "Alpha")]])])])])⟩).projectCalls
    = [some (.str "h1")] := rfl

example :
    (performGraphQLQuery
      ⟨.ok (.obj [("hubs", .obj [("results", .arr [])])]),
       fun _ => .ok .null⟩).result = noHubsError := rfl

example :
    (performGraphQLQuery
      ⟨.ok (.obj [("hubs", .obj [("results",
          .arr [.obj [("id", .str "h1"), ("name", .str "Hub One")], .null])])]),
       fun _ => .ok (.obj [])⟩)
    = ⟨graphQLQueryError "Cannot read properties of null (reading id)", []⟩ := rfl

example :
    (performGraphQLQuery
      ⟨.ok (.obj [("hubs", .obj [("results",
          .arr [.obj [("id", .str "h1")]])])]),
       fun _ => .ok (.obj [("hub", .null)])⟩).result
    = .obj [("error", .str "No projects found in hub h1.")] := rfl

/-!
The GET /api/auth/callback handler (app.ts).  Inputs of one invocation:
the code query parameter (absent = none), the outcome of the axios POST to
the token endpoint (rejection carries the error message; resolution carries
response.data), the gateway behaviour as a function of the access token the
orchestrator is started with, and the accessToken slot of the session before
the request.  The outcome records the HTTP response, the session slot after
the request, and whether the token exchange and the orchestration were
reached at all.
-/

structure HttpResponse where
  status : Nat
  body : Json

structure CallbackOutcome where
  response : HttpResponse
  sessionAfter : JVal
  tokenExchangeAttempted : Bool
  orchestrationRan : Bool
  projectCalls : List JVal

/-- The guard `if (!code)` on the callback route: absent and empty-string
values of the query parameter are both falsy. -/
def codeMissing : Option String → Bool
  | none => true
  | some s => s == ""

/-- The 400 body sent when the code parameter is missing. -/
def missingCodeBody : Json :=
  .obj [("error", .str "Authorization code not found")]

/-- The 500 body sent from the catch block of the callback handler. -/
def tokenFailureBody (msg : String) : Json :=
  .obj [("error", .str "Failed to obtain access token"), ("details", .str msg)]

/-- The GET /api/auth/callback handler.  `tokenResult` is the outcome of the
token-endpoint POST; `gateway` gives the GraphQL behaviour for the access
token handed to performGraphQLQuery. -/
def callbackHandler (code : Option String) (tokenResult : Except String Json)
    (gateway : JVal → GraphQLBackend) (sessionBefore : JVal) : CallbackOutcome :=
  if codeMissing code then
    ⟨⟨400, missingCodeBody⟩, sessionBefore, false, false, []⟩
  else
    match tokenResult with
    | .error msg =>
      ⟨⟨500, tokenFailureBody msg⟩, sessionBefore, true, false, []⟩
    | .ok tokens =>
      match jsGet tokens "access_token" with
      | .error msg =>
        ⟨⟨500, tokenFailureBody msg⟩, sessionBefore, true, false, []⟩
      | .ok accessToken =>
        let run := performGraphQLQuery (gateway accessToken)
        ⟨⟨200, run.result⟩, accessToken, true, true, run.projectCalls⟩

/-!
The GET / handler (app.ts): build the authorize URL with URLSearchParams
and redirect (302) to it.
-/

def AUTH_URL : String :=
  "https://developer.api.autodesk.com/authentication/v2/authorize"

def REDIRECT_URI : String := "http://localhost:8080/api/auth/callback"

def SCOPES : List String := ["data:read", "account:read", "viewables:read"]

/-- Characters URLSearchParams.toString leaves unescaped
(application/x-www-form-urlencoded serialization). -/
def urlUnreserved (c : Char) : Bool :=
  (c ≥ 'A' && c ≤ 'Z') || (c ≥ 'a' && c ≤ 'z') || (c ≥ '0' && c ≤ '9') ||
    c == '*' || c == '-' || c == '.' || c == '_'

def hexDigit (n : Nat) : Char :=
  if n < 10 then Char.ofNat (n + 48) else Char.ofNat (n - 10 + 65)

def byteHex (b : Nat) : String :=
  String.mk ['%', hexDigit (b / 16 % 16), hexDigit (b % 16)]

/-- The UTF-8 bytes of a code point. -/
def utf8Bytes (n : Nat) : List Nat :=
  if n < 128 then [n]
  else if n < 2048 then [192 + n / 64, 128 + n % 64]
  else if n < 65536 then [224 + n / 4096, 128 + n / 64 % 64, 128 + n % 64]
  else [240 + n / 262144, 128 + n / 4096 % 64, 128 + n / 64 % 64, 128 + n % 64]

/-- Percent-encoding of one value in application/x-www-form-urlencoded:
spaces become plus signs, unreserved characters stay, everything else is
percent-encoded bytewise over its UTF-8 encoding. -/
def formUrlEncode (s : String) : String :=
  s.data.foldl (fun acc c =>
    if c == ' ' then acc ++ "+"
    else if urlUnreserved c then acc ++ String.singleton c
    else acc ++ String.join ((utf8Bytes c.toNat).map byteHex)) ""

/-- URLSearchParams.toString over a list of key/value pairs. -/
def encodeParams (ps : List (String × String)) : String :=
  String.intercalate "&" (ps.map fun p => formUrlEncode p.1 ++ "=" ++ formUrlEncode p.2)

/-- The query parameters the root route puts into the authorize URL. -/
def authParams (clientId : String) : List (String × String) :=
  [("response_type", "code"),
   ("client_id", clientId),
   ("redirect_uri", REDIRECT_URI),
   ("scope", String.intercalate " " SCOPES)]

structure RedirectResponse where
  status : Nat
  location : String

/-- The GET / handler: a 302 redirect to the authorize URL carrying the
serialized query parameters. -/
def rootHandler (clientId : String) : RedirectResponse :=
  ⟨302, AUTH_URL ++ "?" ++ encodeParams (authParams clientId)⟩

example :
    (rootHandler "abc").location
    = "https://developer.api.autodesk.com/authentication/v2/authorize?response_type=code&client_id=abc&redirect_uri=http%3A%2F%2Flocalhost%3A8080%2Fapi%2Fauth%2Fcallback&scope=data%3Aread+account%3Aread+viewables%3Aread" := rfl

/-! Helper lemmas about the orchestrator. -/

/-- Every branch of the projects phase performs exactly the one projects
query it was entered with. -/
theorem projectsPhase_projectCalls (b : GraphQLBackend) (hubId : JVal) :
    (projectsPhase b hubId).projectCalls = [hubId] := by
  unfold projectsPhase
  cases b.projectsResult hubId with
  | error msg => rfl
  | ok p =>
    dsimp only
    cases jsGet p "hub" with
    | error m => rfl
    | ok php =>
      dsimp only
      split <;> rfl

/-- A cons list is truthy and of nonzero length, so the emptiness guard
rejects it. -/
theorem jsEmptyCheck_cons (x : Json) (l : List Json) :
    jsEmptyCheck (some (.arr (x :: l))) = false := rfl

/-- The logging loop completes when every element of the list is an object
(the id and name reads then never throw). -/
theorem forEachLog_ok (l : List Json)
    (h : ∀ x ∈ l, ∃ gs, x = Json.obj gs) : forEachLog l = .ok () := by
  induction l with
  | nil => rfl
  | cons x xs ih =>
    rcases h x (List.mem_cons_self x xs) with ⟨gs, rfl⟩
    exact ih fun y hy => h y (List.mem_cons_of_mem _ hy)

/-- With a resolved hubs payload whose hubs.results chain yields a nonempty
array of objects, the logging loop completes and the orchestrator runs the
projects phase on the id field of the first object. -/
theorem performGraphQLQuery_selects_first (b : GraphQLBackend) (j : Json)
    (hp : JVal) (hfs : List (String × Json)) (rest : List Json)
    (hb : b.hubsResult = .ok j) (h1 : jsGet j "hubs" = .ok hp)
    (h2 : jsOptGet hp "results" = some (.arr (.obj hfs :: rest)))
    (hrest : ∀ x ∈ rest, ∃ gs, x = Json.obj gs) :
    performGraphQLQuery b = projectsPhase b (lookupField hfs "id") := by
  unfold performGraphQLQuery
  rw [hb]
  dsimp only
  rw [h1]
  dsimp only
  rw [h2, jsEmptyCheck_cons]
  dsimp only
  have hall : ∀ x ∈ (Json.obj hfs :: rest), ∃ gs, x = Json.obj gs := by
    intro x hx
    rcases List.mem_cons.mp hx with hx | hx
    · exact ⟨hfs, hx⟩
    · exact hrest x hx
  rw [forEachLog_ok _ hall]
  rfl

/-! Concrete payloads used by the witnesses. -/

/-- A resolved hubs payload listing two hubs h1 and h2. -/
def twoHubsPayload : Json :=
  .obj [("hubs", .obj [("results",
    .arr [.obj [("id", .str "h1"), ("name", .str "Hub One")],
          .obj [("id", .str "h2"), ("name", .str "Hub Two")]])])]

/-- A resolved projects payload listing one project Alpha. -/
def alphaProjectsPayload : Json :=
  .obj [("hub", .obj [("projects", .obj [("results",
    .arr [.obj [("id", .str "p1"), ("name", .str "Alpha")]])])])]

/-- A resolved projects payload with an empty results list. -/
def emptyProjectsPayload : Json :=
  .obj [("hub", .obj [("projects", .obj [("results", .arr [])])])]

/-- C1: whenever the hubs query resolves with a payload whose hubs.results
list is a nonempty list of hub objects, the orchestrator invokes the
projects query exactly once, with the id of the first hub of that list, and
with no other hub id — independently of how many hubs follow. -/
theorem C1_first_hub_only (b : GraphQLBackend) (j : Json) (hp : JVal)
    (hfs : List (String × Json)) (rest : List Json) (hid : Json)
    (hb : b.hubsResult = .ok j) (h1 : jsGet j "hubs" = .ok hp)
    (h2 : jsOptGet hp "results" = some (.arr (.obj hfs :: rest)))
    (hrest : ∀ x ∈ rest, ∃ gs, x = Json.obj gs)
    (h3 : lookupField hfs "id" = some hid) :
    (performGraphQLQuery b).projectCalls = [some hid] := by
  rw [performGraphQLQuery_selects_first b j hp hfs rest hb h1 h2 hrest,
      projectsPhase_projectCalls, h3]

theorem C1_first_hub_only_witness :
    (performGraphQLQuery
      ⟨.ok twoHubsPayload, fun _ => .ok alphaProjectsPayload⟩).projectCalls
      = [some (.str "h1")] :=
  C1_first_hub_only ⟨.ok twoHubsPayload, fun _ => .ok alphaProjectsPayload⟩
    twoHubsPayload _ _ _ (.str "h1") rfl rfl rfl
    (fun x hx => ⟨_, List.mem_singleton.mp hx⟩) rfl

/-- C2: whenever the hubs query resolves with a payload whose hubs.results
chain is absent or an empty list, the orchestrator returns the no-hubs error
object as an ordinary value and performs no projects query at all. -/
theorem C2_empty_hubs_normal_result (b : GraphQLBackend) (j : Json) (hp : JVal)
    (hb : b.hubsResult = .ok j) (h1 : jsGet j "hubs" = .ok hp)
    (h2 : jsOptGet hp "results" = none ∨ jsOptGet hp "results" = some (.arr [])) :
    (performGraphQLQuery b).result
        = .obj [("error", .str "No hubs found or access denied.")] ∧
    (performGraphQLQuery b).projectCalls = [] := by
  unfold performGraphQLQuery
  rw [hb]
  dsimp only
  rw [h1]
  dsimp only
  rcases h2 with h2 | h2 <;> rw [h2] <;> exact ⟨rfl, rfl⟩

theorem C2_empty_hubs_normal_result_witness :
    (performGraphQLQuery
      ⟨.ok (.obj [("hubs", .obj [("results", .arr [])])]),
       fun _ => .ok (.obj [])⟩).result
        = .obj [("error", .str "No hubs found or access denied.")] ∧
    (performGraphQLQuery
      ⟨.ok (.obj [("hubs", .obj [("results", .arr [])])]),
       fun _ => .ok (.obj [])⟩).projectCalls = [] :=
  C2_empty_hubs_normal_result
    ⟨.ok (.obj [("hubs", .obj [("results", .arr [])])]), fun _ => .ok (.obj [])⟩
    _ _ rfl rfl (.inr rfl)

/-- Template interpolation of a defined string value is the string itself. -/
theorem jsValStr_str (s : String) : jsValStr (some (.str s)) = s := by
  simp [jsValStr, Json.jsStr]

/-- C5: when the hubs list consists of hub objects and the selected first
hub has id sid, and the projects query resolves with a payload whose
hub.projects.results chain is absent or an empty list, the orchestrator
returns the no-projects error object with that very hub id interpolated
into the message. -/
theorem C5_empty_projects_message (b : GraphQLBackend) (j : Json) (hp : JVal)
    (hfs : List (String × Json)) (rest : List Json) (sid : String)
    (p : Json) (php : JVal)
    (hb : b.hubsResult = .ok j) (h1 : jsGet j "hubs" = .ok hp)
    (h2 : jsOptGet hp "results" = some (.arr (.obj hfs :: rest)))
    (hrest : ∀ x ∈ rest, ∃ gs, x = Json.obj gs)
    (h3 : lookupField hfs "id" = some (.str sid))
    (hp1 : b.projectsResult (some (.str sid)) = .ok p)
    (hp2 : jsGet p "hub" = .ok php)
    (hp3 : jsOptGet (jsOptGet php "projects") "results" = none ∨
           jsOptGet (jsOptGet php "projects") "results" = some (.arr [])) :
    (performGraphQLQuery b).result
      = .obj [("error", .str ("No projects found in hub " ++ sid ++ "."))] := by
  rw [performGraphQLQuery_selects_first b j hp hfs rest hb h1 h2 hrest, h3]
  unfold projectsPhase
  rw [hp1]
  dsimp only
  rw [hp2]
  dsimp only
  rcases hp3 with hp3 | hp3 <;> rw [hp3] <;>
    · show noProjectsError (some (.str sid)) = _
      unfold noProjectsError
      rw [jsValStr_str]

theorem C5_empty_projects_message_witness :
    (performGraphQLQuery
      ⟨.ok twoHubsPayload, fun _ => .ok emptyProjectsPayload⟩).result
      = .obj [("error", .str ("No projects found in hub " ++ "h1" ++ "."))] :=
  C5_empty_projects_message
    ⟨.ok twoHubsPayload, fun _ => .ok emptyProjectsPayload⟩
    twoHubsPayload _ _ _ "h1" emptyProjectsPayload _
    rfl rfl rfl (fun x hx => ⟨_, List.mem_singleton.mp hx⟩)
    rfl rfl rfl (.inr rfl)

/-- C6: when the hubs list consists of hub objects, a hub is selected, and
the projects query resolves with a payload whose hub.projects.results chain
is a nonempty list, the orchestrator returns that resolved payload itself,
unmodified. -/
theorem C6_raw_projects_payload (b : GraphQLBackend) (j : Json) (hp : JVal)
    (hfs : List (String × Json)) (rest : List Json) (hid : Json)
    (p : Json) (php : JVal) (q : Json) (qs : List Json)
    (hb : b.hubsResult = .ok j) (h1 : jsGet j "hubs" = .ok hp)
    (h2 : jsOptGet hp "results" = some (.arr (.obj hfs :: rest)))
    (hrest : ∀ x ∈ rest, ∃ gs, x = Json.obj gs)
    (h3 : lookupField hfs "id" = some hid)
    (hp1 : b.projectsResult (some hid) = .ok p)
    (hp2 : jsGet p "hub" = .ok php)
    (hp3 : jsOptGet (jsOptGet php "projects") "results" = some (.arr (q :: qs))) :
    (performGraphQLQuery b).result = p := by
  rw [performGraphQLQuery_selects_first b j hp hfs rest hb h1 h2 hrest, h3]
  unfold projectsPhase
  rw [hp1]
  dsimp only
  rw [hp2]
  dsimp only
  rw [hp3, jsEmptyCheck_cons]
  rfl

theorem C6_raw_projects_payload_witness :
    (performGraphQLQuery
      ⟨.ok twoHubsPayload, fun _ => .ok alphaProjectsPayload⟩).result
      = alphaProjectsPayload :=
  C6_raw_projects_payload
    ⟨.ok twoHubsPayload, fun _ => .ok alphaProjectsPayload⟩
    twoHubsPayload _ _ _ (.str "h1") alphaProjectsPayload _ _ _
    rfl rfl rfl (fun x hx => ⟨_, List.mem_singleton.mp hx⟩) rfl rfl rfl rfl

/-- A gateway that resolves every query with an empty object, regardless of
the access token. -/
def constGateway : JVal → GraphQLBackend :=
  fun _ => ⟨.ok (.obj []), fun _ => .ok (.obj [])⟩

/-- C4: a throw from the hubs query, or from the projects query reached
through a hubs list of hub objects, surfaces as the catch-all object, its
details field carrying the message of the thrown error; the callback
delivers the orchestration result with status 200 (the orchestrator never
re-throws); and the catch-all object differs from both empty-result
objects, whatever the message and hub id are. -/
theorem C4_thrown_errors_shape (msg : String) :
    (∀ b : GraphQLBackend, b.hubsResult = .error msg →
        (performGraphQLQuery b).result
          = .obj [("error", .str "An error occurred during the GraphQL query"),
                  ("details", .str msg)]) ∧
    (∀ (b : GraphQLBackend) (j : Json) (hp : JVal) (hfs : List (String × Json))
        (rest : List Json) (hid : Json),
        b.hubsResult = .ok j → jsGet j "hubs" = .ok hp →
        jsOptGet hp "results" = some (.arr (.obj hfs :: rest)) →
        (∀ x ∈ rest, ∃ gs, x = Json.obj gs) →
        lookupField hfs "id" = some hid →
        b.projectsResult (some hid) = .error msg →
        (performGraphQLQuery b).result
          = .obj [("error", .str "An error occurred during the GraphQL query"),
                  ("details", .str msg)]) ∧
    (∀ (code : Option String) (tokens : Json) (atk : JVal)
        (gateway : JVal → GraphQLBackend) (s : JVal),
        codeMissing code = false → jsGet tokens "access_token" = .ok atk →
        (callbackHandler code (.ok tokens) gateway s).response
          = ⟨200, (performGraphQLQuery (gateway atk)).result⟩) ∧
    (graphQLQueryError msg ≠ noHubsError) ∧
    (∀ hubId : JVal, graphQLQueryError msg ≠ noProjectsError hubId) := by
  refine ⟨?_, ?_, ?_, ?_, ?_⟩
  · intro b hb
    unfold performGraphQLQuery
    rw [hb]
    rfl
  · intro b j hp hfs rest hid hb h1 h2 hrest h3 hp1
    rw [performGraphQLQuery_selects_first b j hp hfs rest hb h1 h2 hrest, h3]
    unfold projectsPhase
    rw [hp1]
    rfl
  · intro code tokens atk gateway s hc hatk
    unfold callbackHandler
    rw [hc]
    dsimp only
    rw [hatk]
    rfl
  · simp [graphQLQueryError, noHubsError]
  · intro hubId
    simp [graphQLQueryError, noProjectsError]

theorem C4_thrown_errors_shape_witness :
    (performGraphQLQuery ⟨.error "boom", fun _ => .ok (.obj [])⟩).result
        = .obj [("error", .str "An error occurred during the GraphQL query"),
                ("details", .str "boom")] ∧
    (performGraphQLQuery ⟨.ok twoHubsPayload, fun _ => .error "boom"⟩).result
        = .obj [("error", .str "An error occurred during the GraphQL query"),
                ("details", .str "boom")] ∧
    (callbackHandler (some "authcode") (.ok (.obj [("access_token", .str "tok")]))
        constGateway none).response
        = ⟨200, (performGraphQLQuery (constGateway (some (.str "tok")))).result⟩ ∧
    graphQLQueryError "boom" ≠ noHubsError ∧
    graphQLQueryError "boom" ≠ noProjectsError (some (.str "h1")) :=
  ⟨(C4_thrown_errors_shape "boom").1 _ rfl,
   (C4_thrown_errors_shape "boom").2.1
      ⟨.ok twoHubsPayload, fun _ => .error "boom"⟩ twoHubsPayload _ _ _
      (.str "h1") rfl rfl rfl
      (fun x hx => ⟨_, List.mem_singleton.mp hx⟩) rfl rfl,
   (C4_thrown_errors_shape "boom").2.2.1 (some "authcode")
      (.obj [("access_token", .str "tok")]) _ constGateway none rfl rfl,
   (C4_thrown_errors_shape "boom").2.2.2.1,
   (C4_thrown_errors_shape "boom").2.2.2.2 (some (.str "h1"))⟩

/-- C7: a callback request without a code query parameter is answered with
status 400 and the authorization-code-not-found body; no token exchange and
no GraphQL query is attempted, and the session slot is untouched. -/
theorem C7_missing_code (tokenResult : Except String Json)
    (gateway : JVal → GraphQLBackend) (s : JVal) :
    (callbackHandler none tokenResult gateway s).response
        = ⟨400, .obj [("error", .str "Authorization code not found")]⟩ ∧
    (callbackHandler none tokenResult gateway s).tokenExchangeAttempted = false ∧
    (callbackHandler none tokenResult gateway s).orchestrationRan = false ∧
    (callbackHandler none tokenResult gateway s).projectCalls = [] ∧
    (callbackHandler none tokenResult gateway s).sessionAfter = s :=
  ⟨rfl, rfl, rfl, rfl, rfl⟩

/-- C9: every request to the root route is answered with a 302 redirect to
the authorize URL whose query string is the form-encoding of exactly
response_type=code, the configured client id, the fixed local callback
redirect uri, and the space-joined three scopes; no state and no nonce
parameter occurs. -/
theorem C9_root_redirect (clientId : String) :
    rootHandler clientId
      = ⟨302, AUTH_URL ++ "?" ++ encodeParams (authParams clientId)⟩ ∧
    authParams clientId
      = [("response_type", "code"), ("client_id", clientId),
         ("redirect_uri", "http://localhost:8080/api/auth/callback"),
         ("scope", "data:read account:read viewables:read")] ∧
    "state" ∉ (authParams clientId).map Prod.fst ∧
    "nonce" ∉ (authParams clientId).map Prod.fst := by
  have hkeys : (authParams clientId).map Prod.fst
      = ["response_type", "client_id", "redirect_uri", "scope"] := rfl
  refine ⟨rfl, rfl, ?_, ?_⟩ <;> rw [hkeys] <;> decide

/-- C3 counterexample: a token-endpoint call that resolves with a 2xx body
lacking access_token (a malformed body) is answered with status 200, not
500 — the handler only takes the 500 path when the call rejects or when
reading access_token throws. -/
theorem C3_counterexample :
    (callbackHandler (some "authcode") (.ok (.obj [("token_type", .str "Bearer")]))
        constGateway none).response.status = 200 ∧
    (callbackHandler (some "authcode") (.ok (.obj [("token_type", .str "Bearer")]))
        constGateway none).response.status ≠ 500 :=
  ⟨rfl, by decide⟩

/-- C3 amended: every rejected token-endpoint call (network error or non-2xx
status, surfaced as a rejected promise with message msg) is answered with
status 500 and body with error field "Failed to obtain access token" and
details field equal to msg; a call resolving with a null body likewise
yields 500 with the TypeError message as details; a resolved body merely
lacking access_token does not take the 500 path. -/
theorem C3_amended_token_failure (code : Option String) (msg : String)
    (gateway : JVal → GraphQLBackend) (s : JVal)
    (hc : codeMissing code = false) :
    (callbackHandler code (.error msg) gateway s).response
        = ⟨500, .obj [("error", .str "Failed to obtain access token"),
                      ("details", .str msg)]⟩ ∧
    (callbackHandler code (.ok .null) gateway s).response
        = ⟨500, .obj [("error", .str "Failed to obtain access token"),
                      ("details",
                       .str "Cannot read properties of null (reading access_token)")]⟩ := by
  unfold callbackHandler
  rw [hc]
  exact ⟨rfl, rfl⟩

theorem C3_amended_token_failure_witness :
    (callbackHandler (some "authcode") (.error "Request failed with status code 400")
        constGateway none).response
        = ⟨500, .obj [("error", .str "Failed to obtain access token"),
                      ("details", .str "Request failed with status code 400")]⟩ ∧
    (callbackHandler (some "authcode") (.ok .null) constGateway none).response
        = ⟨500, .obj [("error", .str "Failed to obtain access token"),
                      ("details",
                       .str "Cannot read properties of null (reading access_token)")]⟩ :=
  C3_amended_token_failure (some "authcode") "Request failed with status code 400"
    constGateway none rfl

/-- C8 counterexample: if the token endpoint resolves with an access_token
equal to the empty string, the handler writes that empty string into the
session slot — the slot is not always absent-or-nonempty. -/
theorem C8_counterexample :
    (callbackHandler (some "authcode") (.ok (.obj [("access_token", .str "")]))
        constGateway none).sessionAfter = some (.str "") ∧
    "".length = 0 :=
  ⟨rfl, rfl⟩

/-- C8 amended: within one callback invocation the slot is written at most
once — it is unchanged on the missing-code path, the rejected-exchange path
and the null-body path, and on the success path it is set to exactly the
access_token value of the token response; it is a non-empty string whenever
the endpoint returned a non-empty string there.  Emptiness of the stored
token, or repeated writes across separate successful callbacks, are not
prevented by the code. -/
theorem C8_amended_slot_write (code : Option String)
    (tokenResult : Except String Json) (gateway : JVal → GraphQLBackend)
    (s : JVal) :
    (codeMissing code = true →
      (callbackHandler code tokenResult gateway s).sessionAfter = s) ∧
    (∀ msg, codeMissing code = false → tokenResult = .error msg →
      (callbackHandler code tokenResult gateway s).sessionAfter = s) ∧
    (codeMissing code = false → tokenResult = .ok .null →
      (callbackHandler code tokenResult gateway s).sessionAfter = s) ∧
    (∀ tokens atk, codeMissing code = false → tokenResult = .ok tokens →
      jsGet tokens "access_token" = .ok atk →
      (callbackHandler code tokenResult gateway s).sessionAfter = atk) ∧
    (∀ tokens t, codeMissing code = false → tokenResult = .ok tokens →
      jsGet tokens "access_token" = .ok (some (.str t)) → t ≠ "" →
      (callbackHandler code tokenResult gateway s).sessionAfter = some (.str t)
        ∧ t ≠ "") := by
  refine ⟨?_, ?_, ?_, ?_, ?_⟩
  · intro hc
    unfold callbackHandler
    rw [hc]
    rfl
  · intro msg hc ht
    unfold callbackHandler
    rw [hc, ht]
    rfl
  · intro hc ht
    unfold callbackHandler
    rw [hc, ht]
    rfl
  · intro tokens atk hc ht hatk
    unfold callbackHandler
    rw [hc, ht]
    dsimp only
    rw [hatk]
    rfl
  · intro tokens t hc ht hatk hne
    refine ⟨?_, hne⟩
    unfold callbackHandler
    rw [hc, ht]
    dsimp only
    rw [hatk]
    rfl

theorem C8_amended_slot_write_witness :
    (callbackHandler (some "authcode") (.ok (.obj [("access_token", .str "tok")]))
        constGateway none).sessionAfter = some (.str "tok") ∧ "tok" ≠ "" :=
  (C8_amended_slot_write (some "authcode") (.ok (.obj [("access_token", .str "tok")]))
      constGateway none).2.2.2.2 (.obj [("access_token", .str "tok")]) "tok"
    rfl rfl rfl (by decide)

/-- C10 counterexample: a token-endpoint call that succeeds (the promise
resolves) with a null body performs no session write at all: the handler
answers 500 and the slot keeps its previous value, and the orchestration is
never started — refuting written-if-succeeded. -/
theorem C10_counterexample :
    (callbackHandler (some "authcode") (.ok .null) constGateway
        (some (.str "old"))).sessionAfter = some (.str "old") ∧
    (callbackHandler (some "authcode") (.ok .null) constGateway
        (some (.str "old"))).response.status = 500 ∧
    (callbackHandler (some "authcode") (.ok .null) constGateway
        (some (.str "old"))).orchestrationRan = false :=
  ⟨rfl, rfl, rfl⟩

/-- C10 amended: on a rejected token-endpoint call the slot is unchanged and
the orchestration never runs; when the call resolves with a body whose
access_token property reads as a defined value, that value is stored and the
orchestration runs, its result delivered with status 200 whatever the
GraphQL gateway does — the stored token is retained on every orchestration
outcome; a resolved null body throws before the write, so the slot is
unchanged and the handler answers 500. -/
theorem C10_amended_write_on_success (code : Option String)
    (gateway : JVal → GraphQLBackend) (s : JVal)
    (hc : codeMissing code = false) :
    (∀ msg, (callbackHandler code (.error msg) gateway s).sessionAfter = s ∧
        (callbackHandler code (.error msg) gateway s).orchestrationRan = false) ∧
    (∀ tokens tv, jsGet tokens "access_token" = .ok (some tv) →
        (callbackHandler code (.ok tokens) gateway s).sessionAfter = some tv ∧
        (callbackHandler code (.ok tokens) gateway s).orchestrationRan = true ∧
        (callbackHandler code (.ok tokens) gateway s).response
          = ⟨200, (performGraphQLQuery (gateway (some tv))).result⟩) ∧
    ((callbackHandler code (.ok .null) gateway s).sessionAfter = s ∧
     (callbackHandler code (.ok .null) gateway s).response.status = 500) := by
  refine ⟨?_, ?_, ?_⟩
  · intro msg
    unfold callbackHandler
    rw [hc]
    exact ⟨rfl, rfl⟩
  · intro tokens tv hatk
    unfold callbackHandler
    rw [hc]
    dsimp only
    rw [hatk]
    exact ⟨rfl, rfl, rfl⟩
  · unfold callbackHandler
    rw [hc]
    exact ⟨rfl, rfl⟩

theorem C10_amended_write_on_success_witness :
    (callbackHandler (some "authcode") (.ok (.obj [("access_token", .str "tok")]))
        constGateway none).sessionAfter = some (.str "tok") ∧
    (callbackHandler (some "authcode") (.ok (.obj [("access_token", .str "tok")]))
        constGateway none).orchestrationRan = true ∧
    (callbackHandler (some "authcode") (.ok (.obj [("access_token", .str "tok")]))
        constGateway none).response
      = ⟨200, (performGraphQLQuery (constGateway (some (.str "tok")))).result⟩ :=
  (C10_amended_write_on_success (some "authcode") constGateway none rfl).2.1
    (.obj [("access_token", .str "tok")]) (.str "tok") rfl
